import Mathlib

/-!
Verification of the Bitzy swap SDK's route-resolution and part-count
decision engine against its specification.

The development shallowly embeds the TypeScript sources:
- `src/utils/PartCount.ts` (offline/online part-count decision, the
  minimum-amounts threshold cache),
- the token utilities (`isNativeToken`, `isWrappedToken`,
  `validateTokens`, `validateAmount`),
- the data model from `src/types`.

Conventions of the embedding:
- JavaScript strings are Lean `String`s; `toLowerCase()` is `toLowerStr`
  (the addresses involved are ASCII hex strings).
- `BigNumber` decimal values are modelled as `ℚ`; a missing or malformed
  numeric field is `Option ℚ` with `none` (a `NaN` comparison in
  BigNumber yields `false`, modelled by `bnGte`).
- Asynchronous functions that may throw are modelled as pure functions
  into `Except String α`; a rejected promise is `Except.error`.
- The process-wide minimum-amounts cache is modelled by explicit state
  passing: `getMinimumAmounts` takes the current time, the outcome the
  external service would produce, and the cache state, and returns the
  result together with the new state and whether an external call was
  issued.
- Functions of the repository that are referenced but whose source is
  not available (the quote assembler `SwapV3Service.fetchRoute` and the
  batch coordinator `fetchBatchSwapRoutes`) are modelled from the
  specification; their doc comments say so explicitly.
-/

/-- JavaScript `String.prototype.toLowerCase` restricted to ASCII,
which covers all addresses handled by the SDK. -/
def toLowerStr (s : String) : String := ⟨s.data.map Char.toLower⟩

/-- Token descriptor, from `src/types` (`Token`). `logoURI` is omitted:
no function of the core reads it. An absent (`undefined`) address field
of a malformed runtime value is modelled by the empty string, which is
falsy in JavaScript exactly like `undefined`. -/
structure Token where
  address : String
  symbol : String
  name : String
  decimals : ℕ
  chainId : ℕ
deriving DecidableEq, Repr

/-- The static high-value registry `HIGH_VALUE_TOKENS` from
`src/utils/PartCount.ts`: `ChainWrap<string[]>`, i.e. a partial map from
chain id to a list of addresses. -/
def HIGH_VALUE_TOKENS : ℕ → Option (List String) := fun chainId =>
  if chainId = 3637 then
    some ["0xEeeeeEeeeEeEeeEeEeEeeEEEeeeeEeeeeeeeEEeE",
          "0x0D2437F93Fed6EA64Ef01cCde385FB1263910C56",
          "0x29eE6138DD4C9815f46D34a4A1ed48F46758A402",
          "0x9BC574a6f1170e90D80826D86a6126d59198A3Ef",
          "0xA0b86a33E6441b8c4C8C0C4C0C4C0C4C0C4C0C4C",
          "0xdAC17F958D2ee523a2206206994597C13D831ec7"]
  else if chainId = 3636 then
    some ["0xEeeeeEeeeEeEeeEeEeEeeEEEeeeeEeeeeeeeEEeE",
          "0x233631132FD56c8f86D1FC97F0b82420a8d20af3",
          "0xA0b86a33E6441b8c4C8C0C4C0C4C0C4C0C4C0C4C",
          "0xdAC17F958D2ee523a2206206994597C13D831ec7"]
  else none

/-- `isHighValueToken` from `src/utils/PartCount.ts`.
`token` is `Token | undefined | null`, hence `Option Token`; the guard
`if (!token?.address) return false` also rejects an empty address. -/
def isHighValueToken (token : Option Token) (chainId : ℕ) : Bool :=
  match token with
  | none => false
  | some t =>
    if t.address = "" then false
    else
      match HIGH_VALUE_TOKENS chainId with
      | none => false
      | some networkTokens =>
        networkTokens.any (fun addr => toLowerStr addr == toLowerStr t.address)

/-- `getPartCountOffline` from `src/utils/PartCount.ts`. -/
def getPartCountOffline (srcToken dstToken : Option Token) (chainId : ℕ)
    (defaultPartCount : ℕ) : ℕ :=
  let srcIsHighValue := isHighValueToken srcToken chainId
  let dstIsHighValue := isHighValueToken dstToken chainId
  if srcIsHighValue && dstIsHighValue then defaultPartCount else 1


/-- One element of the minimum-amounts payload returned by the threshold
endpoint (`{token, minimumAmount}`). The payload is untyped (`any[]`) in
the source, so both fields may be absent or malformed: an absent `token`
is `none`, and an absent or non-numeric `minimumAmount` is `none`
(BigNumber comparison against it yields `false`, see `bnGte`). -/
structure ThresholdRecord where
  token : Option String
  minimumAmount : Option ℚ
deriving DecidableEq, Repr

/-- `amountInBN.gte(record.minimumAmount)` from `src/utils/PartCount.ts`:
a BigNumber comparison where a missing or malformed right-hand side is
`NaN` and every comparison against `NaN` is `false`. -/
def bnGte (a : ℚ) (m : Option ℚ) : Bool :=
  match m with
  | some q => decide (q ≤ a)
  | none => false

/-- The predicate of the `find` calls in `getPartCountOnline`:
`item.token?.toLowerCase() === address.toLowerCase()`; an absent
`item.token` makes the comparison false. -/
def minRecordMatches (address : String) (item : ThresholdRecord) : Bool :=
  match item.token with
  | some t => toLowerStr t == toLowerStr address
  | none => false

/-- `getPartCountOnline` from `src/utils/PartCount.ts`. The outcome of
`getMinimumAmounts` (the threshold fetch through the cache) is passed in
as `fetch : Except String (List ThresholdRecord)`; `Except.error`
models the awaited promise rejecting. The surrounding `try`/`catch`
turns every error into the offline decision, so the codomain is
`Except String ℕ` with `Except.error` reserved for a propagated
exception — which the catch prevents. -/
def getPartCountOnline (srcToken dstToken : Token) (amountIn : ℚ)
    (chainId : ℕ) (fetch : Except String (List ThresholdRecord))
    (fallbackPartCount : ℕ) : Except String ℕ :=
  match fetch with
  | Except.error _ =>
    Except.ok (getPartCountOffline (some srcToken) (some dstToken) chainId fallbackPartCount)
  | Except.ok minimumData =>
    let srcTokenMin := minimumData.find? (minRecordMatches srcToken.address)
    let dstTokenMin := minimumData.find? (minRecordMatches dstToken.address)
    match srcTokenMin, dstTokenMin with
    | some s, some d =>
      if bnGte amountIn s.minimumAmount && bnGte amountIn d.minimumAmount then
        Except.ok 5
      else
        Except.ok (getPartCountOffline (some srcToken) (some dstToken) chainId fallbackPartCount)
    | _, _ =>
      Except.ok (getPartCountOffline (some srcToken) (some dstToken) chainId fallbackPartCount)

/-- `getPartCountWithFallback` from `src/utils/PartCount.ts`: awaits
`getPartCountOnline` and answers `fallbackPartCount` verbatim if that
await raises. -/
def getPartCountWithFallback (srcToken dstToken : Token) (amountIn : ℚ)
    (chainId : ℕ) (fetch : Except String (List ThresholdRecord))
    (fallbackPartCount : ℕ) : Except String ℕ :=
  match getPartCountOnline srcToken dstToken amountIn chainId fetch fallbackPartCount with
  | Except.ok n => Except.ok n
  | Except.error _ => Except.ok fallbackPartCount

/-- The module-level cache record `MinimumAmountsCache` from
`src/utils/PartCount.ts`. -/
structure MinimumAmountsCache where
  data : List ThresholdRecord
  timestamp : ℕ
  expiresAt : ℕ
deriving DecidableEq, Repr

/-- `CACHE_DURATION` from `src/utils/PartCount.ts`: 5 minutes in
milliseconds. -/
def CACHE_DURATION : ℕ := 5 * 60 * 1000

/-- Shape of the threshold endpoint's reply as consumed by
`getMinimumAmounts` (`apiClient.getAssetMinimum()`), before the
`data.success` check. -/
structure AssetMinimumResponse where
  success : Bool
  data : Option (List ThresholdRecord)
deriving DecidableEq, Repr

/-- Outcome of one `getMinimumAmounts` call: the returned (or thrown)
value, the cache state afterwards, and whether an external call was
issued. -/
structure GetMinimumAmountsOutcome where
  result : Except String (List ThresholdRecord)
  cache : Option MinimumAmountsCache
  externalCall : Bool
deriving Repr

/-- `getMinimumAmounts` from `src/utils/PartCount.ts`, with the
module-level mutable cache made an explicit argument and the external
service's reply passed in as `resp`. A live entry (`now <
cache.expiresAt`) is returned without an external call; otherwise the
endpoint is called, an unsuccessful reply throws and leaves the cache
untouched, and a successful reply installs a fresh entry expiring
`CACHE_DURATION` after `now`. -/
def getMinimumAmounts (now : ℕ) (resp : AssetMinimumResponse)
    (cache : Option MinimumAmountsCache) : GetMinimumAmountsOutcome :=
  match cache with
  | some c =>
    if now < c.expiresAt then
      ⟨Except.ok c.data, some c, false⟩
    else if resp.success then
      ⟨Except.ok (resp.data.getD []), some ⟨resp.data.getD [], now, now + CACHE_DURATION⟩, true⟩
    else
      ⟨Except.error "API request failed", some c, true⟩
  | none =>
    if resp.success then
      ⟨Except.ok (resp.data.getD []), some ⟨resp.data.getD [], now, now + CACHE_DURATION⟩, true⟩
    else
      ⟨Except.error "API request failed", none, true⟩

/-- `clearMinimumAmountsCache` from `src/utils/PartCount.ts`: drops the
entry unconditionally. -/
def clearMinimumAmountsCache : Option MinimumAmountsCache := none

/-- `validateTokens` from the token utilities: both tokens present with
non-empty addresses, addresses different under strict (case-sensitive)
string comparison, chain ids equal. -/
def validateTokens (srcToken dstToken : Token) : Bool :=
  srcToken.address != "" && dstToken.address != "" &&
  srcToken.address != dstToken.address &&
  srcToken.chainId == dstToken.chainId

/-- `validateAmount` from the token utilities, on amounts already parsed
to a number: the amount must be positive (and finite, which every `ℚ`
is; a non-numeric string parses to `NaN` and is rejected before this
model applies). -/
def validateAmount (amount : ℚ) : Bool :=
  decide (0 < amount)

/-- One route hop, from `src/types` (`SwapRoute`). The source fields
`from` and `to` are rendered `fromAddr`/`toAddr` (`from` is a Lean
keyword). -/
structure SwapRoute where
  routerAddress : String
  lpAddress : String
  fromToken : String
  toToken : String
  fromAddr : String
  toAddr : String
  part : String
  amountAfterFee : String
  dexInterface : ℕ
deriving DecidableEq, Repr

/-- Wrap/unwrap marker of a `SwapResult` (`isWrap?: "wrap" | "unwrap"`
in `src/types`). -/
inductive WrapKind where
  | wrap
  | unwrap
deriving DecidableEq, Repr

/-- `SwapResult` from `src/types`. -/
structure SwapResult where
  routes : List (List SwapRoute)
  distributions : List ℤ
  amountOutRoutes : List ℚ
  amountOutBN : ℚ
  amountInParts : List ℚ
  isAmountOutError : Bool
  isWrap : Option WrapKind
deriving DecidableEq, Repr

/-- `SwapOptions` from `src/types`, restricted to the fields the quote
assembler reads. -/
structure SwapOptions where
  amountIn : ℚ
  srcToken : Token
  dstToken : Token
  chainId : ℕ
  partCount : Option ℕ
deriving DecidableEq, Repr

/-- `NetworkConfig` from `src/types`: the per-chain contract/address
table entry. -/
structure NetworkConfig where
  routerAddress : String
  bitzyQueryAddress : String
  wrappedAddress : String
  nativeAddress : String
deriving DecidableEq, Repr

/-- What the external quoting service returns for a resolved part
count, as consumed by the assembler. -/
structure QuoteResponse where
  routes : List (List SwapRoute)
  distributions : List ℤ
  amountOutRoutes : List ℚ
  amountOutBN : ℚ
deriving DecidableEq, Repr

/-- `isNativeToken` from the token utilities. -/
def isNativeToken (token : Token) (nativeAddress : String) : Bool :=
  toLowerStr token.address == toLowerStr nativeAddress

/-- `isWrappedToken` from the token utilities. -/
def isWrappedToken (token : Token) (wrappedAddress : String) : Bool :=
  toLowerStr token.address == toLowerStr wrappedAddress

/-- Modelled from the spec: the per-part input-amount splitting of the
quote assembler (`SwapV3Service`, not in the repository snapshot).
Spec §4.4 step 5: `amountInPerPart[i] = amountIn * distribution[i] /
100` in arbitrary-precision decimal arithmetic, with the residual
rounding assigned to the last part. -/
def amountInPartsOf (amountIn : ℚ) (distributions : List ℤ) : List ℚ :=
  match distributions with
  | [] => []
  | _ :: _ =>
    let leading := (distributions.take (distributions.length - 1)).map
      (fun d : ℤ => amountIn * (d : ℚ) / 100)
    leading ++ [amountIn - leading.sum]

/-- Modelled from the spec: `SwapV3Service.fetchRoute` (the quote
assembler), whose source is not in the repository snapshot. Spec §4.4:
validate the request (a failure is a `ValidationError`), then detect
wrap/unwrap BEFORE any routing or network I/O and short-circuit with a
1:1 result, otherwise assemble the quoting service's reply (passed in
as `quote`), splitting the input by the distribution weights and
flagging degenerate outputs. `validateTokens`, `validateAmount`,
`isNativeToken` and `isWrappedToken` are the source functions. -/
def fetchRoute (options : SwapOptions) (config : NetworkConfig)
    (quote : QuoteResponse) : Except String SwapResult :=
  if !(validateTokens options.srcToken options.dstToken) then
    Except.error "ValidationError: invalid src/dst tokens"
  else if !(validateAmount options.amountIn) then
    Except.error "ValidationError: invalid amount"
  else if isNativeToken options.srcToken config.nativeAddress &&
      isWrappedToken options.dstToken config.wrappedAddress then
    Except.ok ⟨[], [], [], options.amountIn, [], false, some WrapKind.wrap⟩
  else if isWrappedToken options.srcToken config.wrappedAddress &&
      isNativeToken options.dstToken config.nativeAddress then
    Except.ok ⟨[], [], [], options.amountIn, [], false, some WrapKind.unwrap⟩
  else
    Except.ok ⟨quote.routes, quote.distributions, quote.amountOutRoutes,
      quote.amountOutBN, amountInPartsOf options.amountIn quote.distributions,
      quote.routes.isEmpty || decide (quote.amountOutBN ≤ 0) ||
        quote.routes.any List.isEmpty,
      none⟩

/-- Per-item result shape of the batch coordinator. -/
structure BatchItemResult where
  success : Bool
  data : Option SwapResult
  error : Option String
deriving DecidableEq, Repr

/-- Modelled from the spec: `fetchBatchSwapRoutes` from
`common/FetchSwapRoute.ts` (not in the repository snapshot; its unit
and integration tests are). Each item runs independently through the
quote-assembler pipeline — abstracted as `runner` — and a per-item
exception is caught and reported as a failed item at that index without
aborting the siblings; result order mirrors request order. -/
def fetchBatchSwapRoutes (runner : SwapOptions → Except String SwapResult)
    (swaps : List SwapOptions) : List BatchItemResult :=
  swaps.map (fun options =>
    match runner options with
    | Except.ok result => ⟨true, some result, none⟩
    | Except.error e => ⟨false, none, some e⟩)

lemma toLowerStr_eq_empty_iff (s : String) : toLowerStr s = "" ↔ s = "" := by
  constructor
  · intro h
    have hdata : s.data.map Char.toLower = ([] : List Char) := by
      simpa [toLowerStr] using congrArg String.data h
    have hnil : s.data = [] := List.map_eq_nil_iff.mp hdata
    cases s
    simp_all
  · intro h
    subst h
    rfl

/-- Bridge between the boolean classification of the source and registry
membership stated with quantifiers. The hypothesis that no registry
address is empty holds for both concrete chain lists. -/
lemma isHighValueToken_eq_mem (t : Token) (chainId : ℕ) (regs : List String)
    (hreg : HIGH_VALUE_TOKENS chainId = some regs)
    (hne : ∀ r ∈ regs, r ≠ "") :
    isHighValueToken (some t) chainId = true ↔
      ∃ a ∈ regs, toLowerStr a = toLowerStr t.address := by
  simp only [isHighValueToken, hreg]
  by_cases ha : t.address = ""
  · rw [if_pos ha]
    simp only [Bool.false_eq_true, false_iff]
    rintro ⟨a, hmem, hlow⟩
    refine hne a hmem ?_
    rw [ha] at hlow
    have h0 : toLowerStr "" = "" := rfl
    rw [h0] at hlow
    exact (toLowerStr_eq_empty_iff a).mp hlow
  · rw [if_neg ha]
    simp only [List.any_eq_true, beq_iff_eq]

lemma high_value_regs_nonempty_3637 :
    ∀ r ∈ (HIGH_VALUE_TOKENS 3637).getD [], r ≠ "" := by decide

lemma high_value_regs_nonempty_3636 :
    ∀ r ∈ (HIGH_VALUE_TOKENS 3636).getD [], r ≠ "" := by decide

/-- C1: the offline part-count decision returns the caller-supplied
`defaultPartCount` exactly when both tokens' addresses, compared after
lowercasing, appear in the high-value registry of the chain, and `1` in
every other case; for a chain id with no registry entry it returns `1`
regardless of the tokens. -/
theorem getPartCountOffline_registry_decision (src dst : Token) (chainId d : ℕ) :
    getPartCountOffline (some src) (some dst) chainId d =
      match HIGH_VALUE_TOKENS chainId with
      | some regs =>
        if (∃ a ∈ regs, toLowerStr a = toLowerStr src.address) ∧
           (∃ b ∈ regs, toLowerStr b = toLowerStr dst.address) then d else 1
      | none => 1 := by
  have hne : ∀ regs, HIGH_VALUE_TOKENS chainId = some regs → ∀ r ∈ regs, r ≠ "" := by
    intro regs hregs
    by_cases h37 : chainId = 3637
    · subst h37
      have : regs = (HIGH_VALUE_TOKENS 3637).getD [] := by
        simp [hregs]
      rw [this]; exact high_value_regs_nonempty_3637
    · by_cases h36 : chainId = 3636
      · subst h36
        have : regs = (HIGH_VALUE_TOKENS 3636).getD [] := by
          simp [hregs]
        rw [this]; exact high_value_regs_nonempty_3636
      · exfalso
        simp only [HIGH_VALUE_TOKENS, if_neg h37, if_neg h36] at hregs
        exact Option.noConfusion hregs
  cases hreg : HIGH_VALUE_TOKENS chainId with
  | none =>
    simp only [getPartCountOffline, isHighValueToken, hreg]
    cases hs : decide (src.address = "") <;>
      simp_all [getPartCountOffline, isHighValueToken, hreg]
  | some regs =>
    have hsrc := isHighValueToken_eq_mem src chainId regs hreg (hne regs hreg)
    have hdst := isHighValueToken_eq_mem dst chainId regs hreg (hne regs hreg)
    simp only [getPartCountOffline]
    by_cases hcond : (∃ a ∈ regs, toLowerStr a = toLowerStr src.address) ∧
        (∃ b ∈ regs, toLowerStr b = toLowerStr dst.address)
    · rw [if_pos (by
        rw [Bool.and_eq_true, hsrc, hdst]
        exact hcond)]
      simp [hcond]
    · rw [if_neg (by
        rw [Bool.and_eq_true, hsrc, hdst]
        exact hcond)]
      simp [hcond]


/-- Shared helper: the online decision always resolves to a value. -/
lemma getPartCountOnline_isOk (src dst : Token) (a : ℚ) (c : ℕ)
    (fetch : Except String (List ThresholdRecord)) (fb : ℕ) :
    ∃ n, getPartCountOnline src dst a c fetch fb = Except.ok n := by
  unfold getPartCountOnline
  cases fetch with
  | error e => exact ⟨_, rfl⟩
  | ok minimumData =>
    cases hs : minimumData.find? (minRecordMatches src.address) with
    | none =>
      refine ⟨getPartCountOffline (some src) (some dst) c fb, ?_⟩
      simp [hs]
    | some s =>
      cases hd : minimumData.find? (minRecordMatches dst.address) with
      | none =>
        refine ⟨getPartCountOffline (some src) (some dst) c fb, ?_⟩
        simp [hs, hd]
      | some d =>
        by_cases hge : (bnGte a s.minimumAmount && bnGte a d.minimumAmount) = true
        · exact ⟨5, by simp [hs, hd, hge]⟩
        · refine ⟨getPartCountOffline (some src) (some dst) c fb, ?_⟩
          simp [hs, hd, hge]

/-- C2: the online decision returns `5` exactly when the threshold fetch
succeeded, the `find` over the payload locates a record for the source
address and one for the destination address (case-insensitive match on
the `token` field), and the amount satisfies both minimums; in every
other case — either minimum not met, record missing, or the fetch
erroring — it returns the offline decision computed with
`fallbackPartCount` as the high-value default. -/
theorem getPartCountOnline_decision (src dst : Token) (a : ℚ) (c fb : ℕ)
    (fetch : Except String (List ThresholdRecord)) :
    (∀ records s d,
        fetch = Except.ok records →
        records.find? (minRecordMatches src.address) = some s →
        records.find? (minRecordMatches dst.address) = some d →
        bnGte a s.minimumAmount = true →
        bnGte a d.minimumAmount = true →
        getPartCountOnline src dst a c fetch fb = Except.ok 5) ∧
    (∀ records,
        fetch = Except.ok records →
        (¬ ∃ s d, records.find? (minRecordMatches src.address) = some s ∧
            records.find? (minRecordMatches dst.address) = some d ∧
            bnGte a s.minimumAmount = true ∧ bnGte a d.minimumAmount = true) →
        getPartCountOnline src dst a c fetch fb =
          Except.ok (getPartCountOffline (some src) (some dst) c fb)) ∧
    (∀ e, fetch = Except.error e →
        getPartCountOnline src dst a c fetch fb =
          Except.ok (getPartCountOffline (some src) (some dst) c fb)) := by
  refine ⟨?_, ?_, ?_⟩
  · intro records s d hfetch hs hd hgs hgd
    subst hfetch
    simp [getPartCountOnline, hs, hd, hgs, hgd]
  · intro records hfetch hnone
    subst hfetch
    unfold getPartCountOnline
    cases hs : records.find? (minRecordMatches src.address) with
    | none => simp [hs]
    | some s =>
      cases hd : records.find? (minRecordMatches dst.address) with
      | none => simp [hs, hd]
      | some d =>
        have : ¬ (bnGte a s.minimumAmount = true ∧ bnGte a d.minimumAmount = true) := by
          intro ⟨h1, h2⟩
          exact hnone ⟨s, d, hs, hd, h1, h2⟩
        simp only [hs, hd]
        rw [if_neg (by
          rw [Bool.and_eq_true]
          exact this)]
  · intro e hfetch
    subst hfetch
    rfl

/-- Witness for C2: on a successful fetch whose payload holds records
for both token addresses with minimums 10 and 20, an amount of 20
satisfies both thresholds and the decision is 5. -/
theorem getPartCountOnline_decision_witness :
    getPartCountOnline ⟨"0xAAA", "A", "TokA", 18, 3637⟩ ⟨"0xBBB", "B", "TokB", 18, 3637⟩
      (20 : ℚ) 3637
      (Except.ok [⟨some "0xaaa", some (10 : ℚ)⟩, ⟨some "0xbbb", some (20 : ℚ)⟩]) 5 =
      Except.ok 5 :=
  (getPartCountOnline_decision ⟨"0xAAA", "A", "TokA", 18, 3637⟩
      ⟨"0xBBB", "B", "TokB", 18, 3637⟩ (20 : ℚ) 3637 5
      (Except.ok [⟨some "0xaaa", some (10 : ℚ)⟩, ⟨some "0xbbb", some (20 : ℚ)⟩])).1
    [⟨some "0xaaa", some (10 : ℚ)⟩, ⟨some "0xbbb", some (20 : ℚ)⟩]
    ⟨some "0xaaa", some (10 : ℚ)⟩ ⟨some "0xbbb", some (20 : ℚ)⟩
    rfl (by decide) (by decide) (by decide) (by decide)

/-- C3: the online decision never raises — for every input it resolves
to a value, and when the underlying threshold fetch rejects it resolves
to the offline decision computed with the fallback default rather than
propagating the exception. -/
theorem getPartCountOnline_never_raises (src dst : Token) (a : ℚ) (c : ℕ)
    (fetch : Except String (List ThresholdRecord)) (fb : ℕ) :
    (∃ n, getPartCountOnline src dst a c fetch fb = Except.ok n) ∧
    (∀ e : String,
        getPartCountOnline src dst a c (Except.error e) fb =
          Except.ok (getPartCountOffline (some src) (some dst) c fb)) :=
  ⟨getPartCountOnline_isOk src dst a c fetch fb, fun _ => rfl⟩

/-- C8: the threshold lookup of the online decision applies no network
filter — whether the return-5 branch is taken depends only on the token
addresses, the amount and the fetched records, never on the chain id;
two runs that differ only in chain id take the branch together, and when
they do not, each returns its own offline fallback. -/
theorem getPartCountOnline_no_network_filter (src dst : Token) (a : ℚ)
    (records : List ThresholdRecord) (fb c1 c2 : ℕ) :
    ((∃ s d, records.find? (minRecordMatches src.address) = some s ∧
        records.find? (minRecordMatches dst.address) = some d ∧
        bnGte a s.minimumAmount = true ∧ bnGte a d.minimumAmount = true) →
      getPartCountOnline src dst a c1 (Except.ok records) fb = Except.ok 5 ∧
      getPartCountOnline src dst a c2 (Except.ok records) fb = Except.ok 5) ∧
    ((¬ ∃ s d, records.find? (minRecordMatches src.address) = some s ∧
        records.find? (minRecordMatches dst.address) = some d ∧
        bnGte a s.minimumAmount = true ∧ bnGte a d.minimumAmount = true) →
      getPartCountOnline src dst a c1 (Except.ok records) fb =
        Except.ok (getPartCountOffline (some src) (some dst) c1 fb) ∧
      getPartCountOnline src dst a c2 (Except.ok records) fb =
        Except.ok (getPartCountOffline (some src) (some dst) c2 fb)) := by
  constructor
  · rintro ⟨s, d, hs, hd, hgs, hgd⟩
    exact ⟨by simp [getPartCountOnline, hs, hd, hgs, hgd],
           by simp [getPartCountOnline, hs, hd, hgs, hgd]⟩
  · intro hnone
    have key : ∀ c : ℕ, getPartCountOnline src dst a c (Except.ok records) fb =
        Except.ok (getPartCountOffline (some src) (some dst) c fb) := by
      intro c
      unfold getPartCountOnline
      cases hs : records.find? (minRecordMatches src.address) with
      | none => simp [hs]
      | some s =>
        cases hd : records.find? (minRecordMatches dst.address) with
        | none => simp [hs, hd]
        | some d =>
          have hng : ¬ (bnGte a s.minimumAmount = true ∧ bnGte a d.minimumAmount = true) := by
            intro ⟨h1, h2⟩
            exact hnone ⟨s, d, hs, hd, h1, h2⟩
          simp only [hs, hd]
          rw [if_neg (by
            rw [Bool.and_eq_true]
            exact hng)]
    exact ⟨key c1, key c2⟩

/-- Witness for C8: with matching records and a sufficient amount, runs
on chain ids 3637 and 9999 both take the return-5 branch. -/
theorem getPartCountOnline_no_network_filter_witness :
    getPartCountOnline ⟨"0xCCC", "C", "TokC", 18, 3637⟩ ⟨"0xDDD", "D", "TokD", 18, 3637⟩
      (50 : ℚ) 3637
      (Except.ok [⟨some "0xccc", some (30 : ℚ)⟩, ⟨some "0xddd", some (40 : ℚ)⟩]) 5 =
      Except.ok 5 ∧
    getPartCountOnline ⟨"0xCCC", "C", "TokC", 18, 3637⟩ ⟨"0xDDD", "D", "TokD", 18, 3637⟩
      (50 : ℚ) 9999
      (Except.ok [⟨some "0xccc", some (30 : ℚ)⟩, ⟨some "0xddd", some (40 : ℚ)⟩]) 5 =
      Except.ok 5 :=
  (getPartCountOnline_no_network_filter ⟨"0xCCC", "C", "TokC", 18, 3637⟩
      ⟨"0xDDD", "D", "TokD", 18, 3637⟩ (50 : ℚ)
      [⟨some "0xccc", some (30 : ℚ)⟩, ⟨some "0xddd", some (40 : ℚ)⟩] 5 3637 9999).1
    ⟨⟨some "0xccc", some (30 : ℚ)⟩, ⟨some "0xddd", some (40 : ℚ)⟩,
      by decide, by decide, by decide, by decide⟩

/-- C10: `getPartCountWithFallback` coincides with `getPartCountOnline`
on every input — since the online decision never rejects, the catch
branch answering `fallbackPartCount` verbatim is unreachable. -/
theorem getPartCountWithFallback_eq_online (src dst : Token) (a : ℚ) (c : ℕ)
    (fetch : Except String (List ThresholdRecord)) (fb : ℕ) :
    getPartCountWithFallback src dst a c fetch fb =
      getPartCountOnline src dst a c fetch fb := by
  obtain ⟨n, hn⟩ := getPartCountOnline_isOk src dst a c fetch fb
  unfold getPartCountWithFallback
  rw [hn]

/-- C7 counterexample: a `get` that succeeds from a still-live cache
entry does not extend its validity. The entry was installed at time 0
and expires at 300000; a get at time 299999 succeeds (from the cache,
no external call), yet the next get at time 300000 — strictly before
299999 + 5 minutes — issues an external call and, the fetch failing,
does not return the cached records. This refutes the claim that every
get within 5 minutes of ANY successful get is served from the cache. -/
theorem getMinimumAmounts_cache_counterexample :
    (getMinimumAmounts 299999 ⟨false, none⟩
        (some ⟨[⟨some "0xaaa", some (1 : ℚ)⟩], 0, 300000⟩)).result =
      Except.ok [⟨some "0xaaa", some (1 : ℚ)⟩] ∧
    (getMinimumAmounts 299999 ⟨false, none⟩
        (some ⟨[⟨some "0xaaa", some (1 : ℚ)⟩], 0, 300000⟩)).externalCall = false ∧
    300000 < 299999 + CACHE_DURATION ∧
    (getMinimumAmounts 300000 ⟨false, none⟩
        (getMinimumAmounts 299999 ⟨false, none⟩
          (some ⟨[⟨some "0xaaa", some (1 : ℚ)⟩], 0, 300000⟩)).cache).externalCall = true ∧
    (getMinimumAmounts 300000 ⟨false, none⟩
        (getMinimumAmounts 299999 ⟨false, none⟩
          (some ⟨[⟨some "0xaaa", some (1 : ℚ)⟩], 0, 300000⟩)).cache).result =
      Except.error "API request failed" := by
  refine ⟨rfl, rfl, by norm_num [CACHE_DURATION], rfl, rfl⟩

/-- C7 (amended): if a `get` at time `t` misses the cache (no entry, or
the entry has expired) and its external fetch succeeds, then every `get`
at a time strictly before `t + 5` minutes against the resulting state
returns the fetched records and issues no external call; and after
`clear`, the next `get` always issues an external call regardless of
time. -/
theorem getMinimumAmounts_cache_behaviour (t : ℕ) (resp : AssetMinimumResponse)
    (st : Option MinimumAmountsCache)
    (hmiss : ∀ c, st = some c → c.expiresAt ≤ t)
    (hsucc : resp.success = true) :
    (∀ (u : ℕ) (resp' : AssetMinimumResponse), u < t + CACHE_DURATION →
      (getMinimumAmounts u resp' (getMinimumAmounts t resp st).cache).result =
        Except.ok (resp.data.getD []) ∧
      (getMinimumAmounts u resp' (getMinimumAmounts t resp st).cache).externalCall = false) ∧
    (∀ (v : ℕ) (resp'' : AssetMinimumResponse),
      (getMinimumAmounts v resp'' clearMinimumAmountsCache).externalCall = true) := by
  have hcache : (getMinimumAmounts t resp st).cache =
      some ⟨resp.data.getD [], t, t + CACHE_DURATION⟩ := by
    cases st with
    | none => simp [getMinimumAmounts, hsucc]
    | some c =>
      have hexp : ¬ t < c.expiresAt := Nat.not_lt.mpr (hmiss c rfl)
      simp [getMinimumAmounts, hexp, hsucc]
  constructor
  · intro u resp' hu
    rw [hcache]
    simp [getMinimumAmounts, hu]
  · intro v resp''
    cases hvs : resp''.success <;>
      simp [getMinimumAmounts, clearMinimumAmountsCache, hvs]

/-- Witness for the amended C7: starting from an empty cache at time
1000 with a successful fetch, a second get at time 1500 is served from
the cache without an external call, and a get after `clear` calls out. -/
theorem getMinimumAmounts_cache_behaviour_witness :
    (getMinimumAmounts 1500 ⟨false, none⟩
        (getMinimumAmounts 1000 ⟨true, some [⟨some "0xeee", some (2 : ℚ)⟩]⟩ none).cache).result =
      Except.ok [⟨some "0xeee", some (2 : ℚ)⟩] ∧
    (getMinimumAmounts 1500 ⟨false, none⟩
        (getMinimumAmounts 1000 ⟨true, some [⟨some "0xeee", some (2 : ℚ)⟩]⟩ none).cache).externalCall = false ∧
    (getMinimumAmounts 999999999 ⟨true, none⟩ clearMinimumAmountsCache).externalCall = true := by
  have h := getMinimumAmounts_cache_behaviour 1000
    ⟨true, some [⟨some "0xeee", some (2 : ℚ)⟩]⟩ none
    (by intro c hc; exact Option.noConfusion hc) rfl
  refine ⟨(h.1 1500 ⟨false, none⟩ (by norm_num [CACHE_DURATION])).1,
          (h.1 1500 ⟨false, none⟩ (by norm_num [CACHE_DURATION])).2,
          h.2 999999999 ⟨true, none⟩⟩

/-- C9 counterexample: two tokens whose addresses are equal after
lowercasing but differ in letter case are ACCEPTED by `validateTokens`
(it returns `true`), because the source compares addresses with strict
`!==`; the claim says such a request is rejected. -/
theorem validateTokens_case_counterexample :
    toLowerStr "0xAB" = toLowerStr "0xab" ∧
    validateTokens ⟨"0xAB", "T1", "Tok1", 18, 3637⟩ ⟨"0xab", "T2", "Tok2", 18, 3637⟩ = true := by
  decide

/-- C9 (amended): identical-token validation is case-SENSITIVE — a
request whose two token addresses are equal as exact strings is
rejected (`validateTokens` returns `false`), while addresses that agree
only after lowercasing pass validation (given non-empty addresses and
equal chain ids). -/
theorem validateTokens_address_equality (src dst : Token) :
    (src.address = dst.address → validateTokens src dst = false) ∧
    (src.address ≠ "" → dst.address ≠ "" → src.address ≠ dst.address →
      src.chainId = dst.chainId → validateTokens src dst = true) := by
  constructor
  · intro h
    simp [validateTokens, h]
  · intro h1 h2 h3 h4
    simp [validateTokens, h1, h2, h3, h4]

/-- Witness for the amended C9: exactly equal addresses are rejected;
case-variant addresses (with equal chain ids) are accepted. -/
theorem validateTokens_address_equality_witness :
    validateTokens ⟨"0xCD", "S", "TokS", 18, 3637⟩ ⟨"0xCD", "D", "TokD", 18, 3637⟩ = false ∧
    validateTokens ⟨"0xCD", "S", "TokS", 18, 3637⟩ ⟨"0xcd", "D", "TokD", 18, 3637⟩ = true :=
  ⟨(validateTokens_address_equality ⟨"0xCD", "S", "TokS", 18, 3637⟩
      ⟨"0xCD", "D", "TokD", 18, 3637⟩).1 rfl,
   (validateTokens_address_equality ⟨"0xCD", "S", "TokS", 18, 3637⟩
      ⟨"0xcd", "D", "TokD", 18, 3637⟩).2 (by decide) (by decide) (by decide) rfl⟩

/-- C4 (spec-modelled assembler): for every `amountIn` and every
distribution of integer weights summing to 100, the per-part input
amounts reconstruct `amountIn` exactly when summed, with one part per
weight. -/
theorem amountInPartsOf_roundtrip (amountIn : ℚ) (dist : List ℤ)
    (h : dist.sum = 100) :
    (amountInPartsOf amountIn dist).sum = amountIn ∧
    (amountInPartsOf amountIn dist).length = dist.length := by
  cases dist with
  | nil => simp at h
  | cons d ds =>
    constructor
    · simp only [amountInPartsOf, List.sum_append, List.sum_cons, List.sum_nil]
      ring
    · unfold amountInPartsOf
      rw [List.length_append, List.length_map, List.length_take]
      simp only [List.length_cons, List.length_singleton, Nat.add_sub_cancel]
      rw [Nat.min_eq_left (Nat.le_succ _)]
      simp

/-- Witness for C4: amount 10 split along weights 60/40 gives parts
6 and 4, summing back to 10. -/
theorem amountInPartsOf_roundtrip_witness :
    (amountInPartsOf (10 : ℚ) [60, 40]).sum = 10 ∧
    (amountInPartsOf (10 : ℚ) [60, 40]).length = 2 :=
  amountInPartsOf_roundtrip (10 : ℚ) [60, 40] (by decide)

/-- C5 (spec-modelled assembler around the source token utilities): a
valid request whose source token is the chain's native marker and whose
destination is the chain's wrapped token (case-insensitively) is
answered as a wrap — `isWrap = wrap`, empty routes and distributions,
`amountOutBN = amountIn` — independently of the quoting service's
reply, i.e. before any routing or network I/O; the symmetric request is
answered as an unwrap. -/
theorem fetchRoute_wrap_shortcircuit (options : SwapOptions)
    (config : NetworkConfig) (q q' : QuoteResponse)
    (hv : validateTokens options.srcToken options.dstToken = true)
    (ha : validateAmount options.amountIn = true)
    (hnw : toLowerStr config.nativeAddress ≠ toLowerStr config.wrappedAddress) :
    (toLowerStr options.srcToken.address = toLowerStr config.nativeAddress →
     toLowerStr options.dstToken.address = toLowerStr config.wrappedAddress →
       fetchRoute options config q =
         Except.ok ⟨[], [], [], options.amountIn, [], false, some WrapKind.wrap⟩ ∧
       fetchRoute options config q = fetchRoute options config q') ∧
    (toLowerStr options.srcToken.address = toLowerStr config.wrappedAddress →
     toLowerStr options.dstToken.address = toLowerStr config.nativeAddress →
       fetchRoute options config q =
         Except.ok ⟨[], [], [], options.amountIn, [], false, some WrapKind.unwrap⟩ ∧
       fetchRoute options config q = fetchRoute options config q') := by
  constructor
  · intro hsrc hdst
    have hwrap : ∀ qq : QuoteResponse, fetchRoute options config qq =
        Except.ok ⟨[], [], [], options.amountIn, [], false, some WrapKind.wrap⟩ := by
      intro qq
      simp [fetchRoute, hv, ha, isNativeToken, isWrappedToken, hsrc, hdst]
    exact ⟨hwrap q, (hwrap q).trans (hwrap q').symm⟩
  · intro hsrc hdst
    have hwn : (toLowerStr config.wrappedAddress ==
        toLowerStr config.nativeAddress) = false := by
      rw [beq_eq_false_iff_ne]
      exact fun hh => hnw hh.symm
    have hunwrap : ∀ qq : QuoteResponse, fetchRoute options config qq =
        Except.ok ⟨[], [], [], options.amountIn, [], false, some WrapKind.unwrap⟩ := by
      intro qq
      simp [fetchRoute, hv, ha, isNativeToken, isWrappedToken, hsrc, hdst, hwn]
    exact ⟨hunwrap q, (hunwrap q).trans (hunwrap q').symm⟩

/-- Witness for C5: on Botanix mainnet addresses (native marker
`0xEeee...EEeE`, wrapped pBTC `0x0D24...0C56`), a native→wrapped request
yields the wrap short-circuit and the wrapped→native request yields the
unwrap one, for a quoting reply the result provably ignores. -/
theorem fetchRoute_wrap_shortcircuit_witness :
    fetchRoute
      ⟨(1 : ℚ), ⟨"0xEeeeeEeeeEeEeeEeEeEeeEEEeeeeEeeeeeeeEEeE", "BTC", "Bitcoin", 18, 3637⟩,
        ⟨"0x0D2437F93Fed6EA64Ef01cCde385FB1263910C56", "pBTC", "Wrapped Bitcoin", 18, 3637⟩,
        3637, none⟩
      ⟨"0xA5E0AE4e5103dc71cA290AA3654830442357A489", "0x5b5079587501Bd85d3CDf5bFDf299f4eaAe98c23",
        "0x0D2437F93Fed6EA64Ef01cCde385FB1263910C56", "0xEeeeeEeeeEeEeeEeEeEeeEEEeeeeEeeeeeeeEEeE"⟩
      ⟨[], [], [], 0⟩ =
      Except.ok ⟨[], [], [], (1 : ℚ), [], false, some WrapKind.wrap⟩ ∧
    fetchRoute
      ⟨(1 : ℚ), ⟨"0x0D2437F93Fed6EA64Ef01cCde385FB1263910C56", "pBTC", "Wrapped Bitcoin", 18, 3637⟩,
        ⟨"0xEeeeeEeeeEeEeeEeEeEeeEEEeeeeEeeeeeeeEEeE", "BTC", "Bitcoin", 18, 3637⟩,
        3637, none⟩
      ⟨"0xA5E0AE4e5103dc71cA290AA3654830442357A489", "0x5b5079587501Bd85d3CDf5bFDf299f4eaAe98c23",
        "0x0D2437F93Fed6EA64Ef01cCde385FB1263910C56", "0xEeeeeEeeeEeEeeEeEeEeeEEEeeeeEeeeeeeeEEeE"⟩
      ⟨[], [], [], 0⟩ =
      Except.ok ⟨[], [], [], (1 : ℚ), [], false, some WrapKind.unwrap⟩ :=
  ⟨((fetchRoute_wrap_shortcircuit
      ⟨(1 : ℚ), ⟨"0xEeeeeEeeeEeEeeEeEeEeeEEEeeeeEeeeeeeeEEeE", "BTC", "Bitcoin", 18, 3637⟩,
        ⟨"0x0D2437F93Fed6EA64Ef01cCde385FB1263910C56", "pBTC", "Wrapped Bitcoin", 18, 3637⟩,
        3637, none⟩
      ⟨"0xA5E0AE4e5103dc71cA290AA3654830442357A489", "0x5b5079587501Bd85d3CDf5bFDf299f4eaAe98c23",
        "0x0D2437F93Fed6EA64Ef01cCde385FB1263910C56", "0xEeeeeEeeeEeEeeEeEeEeeEEEeeeeEeeeeeeeEEeE"⟩
      ⟨[], [], [], 0⟩ ⟨[], [], [], 0⟩
      (by decide) (by decide) (by decide)).1 (by decide) (by decide)).1,
   ((fetchRoute_wrap_shortcircuit
      ⟨(1 : ℚ), ⟨"0x0D2437F93Fed6EA64Ef01cCde385FB1263910C56", "pBTC", "Wrapped Bitcoin", 18, 3637⟩,
        ⟨"0xEeeeeEeeeEeEeeEeEeEeeEEEeeeeEeeeeeeeEEeE", "BTC", "Bitcoin", 18, 3637⟩,
        3637, none⟩
      ⟨"0xA5E0AE4e5103dc71cA290AA3654830442357A489", "0x5b5079587501Bd85d3CDf5bFDf299f4eaAe98c23",
        "0x0D2437F93Fed6EA64Ef01cCde385FB1263910C56", "0xEeeeeEeeeEeEeeEeEeEeeEEEeeeeEeeeeeeeEEeE"⟩
      ⟨[], [], [], 0⟩ ⟨[], [], [], 0⟩
      (by decide) (by decide) (by decide)).2 (by decide) (by decide)).1⟩

/-- C6 (spec-modelled batch coordinator): the batch result has the same
length and order as the requests — the i-th result reports the i-th
request's outcome, a per-item failure appearing as an unsuccessful item
carrying the message at that index without affecting siblings, for
every runner, including one failing on every item. -/
theorem fetchBatchSwapRoutes_alignment
    (runner : SwapOptions → Except String SwapResult)
    (swaps : List SwapOptions) :
    (fetchBatchSwapRoutes runner swaps).length = swaps.length ∧
    (∀ (i : ℕ) (options : SwapOptions), swaps[i]? = some options →
      (fetchBatchSwapRoutes runner swaps)[i]? =
        some (match runner options with
              | Except.ok result => ⟨true, some result, none⟩
              | Except.error e => ⟨false, none, some e⟩)) ∧
    (∀ (i : ℕ) (options : SwapOptions) (e : String), swaps[i]? = some options →
      runner options = Except.error e →
      (fetchBatchSwapRoutes runner swaps)[i]? =
        some ⟨false, none, some e⟩) := by
  refine ⟨List.length_map swaps _, ?_, ?_⟩
  · intro i options hi
    rw [fetchBatchSwapRoutes, List.getElem?_map, hi]
    rfl
  · intro i options e hi hrun
    rw [fetchBatchSwapRoutes, List.getElem?_map, hi]
    simp [hrun]

/-- Witness for C6: a two-item batch whose first item fails on an
unsupported chain and whose second succeeds reports, in order, a failed
item with the message and a successful one. -/
theorem fetchBatchSwapRoutes_alignment_witness :
    (fetchBatchSwapRoutes
      (fun options => if options.chainId = 3637
        then Except.ok ⟨[], [100], [(2 : ℚ)], 2, [(1 : ℚ)], false, none⟩
        else Except.error "Unsupported network")
      [⟨(1 : ℚ), ⟨"0xA1", "A", "TokA", 18, 9999⟩, ⟨"0xB1", "B", "TokB", 18, 9999⟩, 9999, none⟩,
       ⟨(1 : ℚ), ⟨"0xA1", "A", "TokA", 18, 3637⟩, ⟨"0xB1", "B", "TokB", 18, 3637⟩, 3637, none⟩]).length = 2 ∧
    (fetchBatchSwapRoutes
      (fun options => if options.chainId = 3637
        then Except.ok ⟨[], [100], [(2 : ℚ)], 2, [(1 : ℚ)], false, none⟩
        else Except.error "Unsupported network")
      [⟨(1 : ℚ), ⟨"0xA1", "A", "TokA", 18, 9999⟩, ⟨"0xB1", "B", "TokB", 18, 9999⟩, 9999, none⟩,
       ⟨(1 : ℚ), ⟨"0xA1", "A", "TokA", 18, 3637⟩, ⟨"0xB1", "B", "TokB", 18, 3637⟩, 3637, none⟩])[0]? =
      some ⟨false, none, some "Unsupported network"⟩ := by
  have h := fetchBatchSwapRoutes_alignment
    (fun options => if options.chainId = 3637
      then Except.ok ⟨[], [100], [(2 : ℚ)], 2, [(1 : ℚ)], false, none⟩
      else Except.error "Unsupported network")
    [⟨(1 : ℚ), ⟨"0xA1", "A", "TokA", 18, 9999⟩, ⟨"0xB1", "B", "TokB", 18, 9999⟩, 9999, none⟩,
     ⟨(1 : ℚ), ⟨"0xA1", "A", "TokA", 18, 3637⟩, ⟨"0xB1", "B", "TokB", 18, 3637⟩, 3637, none⟩]
  refine ⟨h.1, h.2.2 0
    ⟨(1 : ℚ), ⟨"0xA1", "A", "TokA", 18, 9999⟩, ⟨"0xB1", "B", "TokB", 18, 9999⟩, 9999, none⟩
    "Unsupported network" rfl (by norm_num)⟩
